import Mathlib

/-!
Verification development for the QuickBooks export scripts
(`qb_inv.py`, `qb_so.py`, `qbpo.py`, `qb_shipto.py`, `qbinv_all.py`).

The scripts all work on parsed `xml.etree.ElementTree` trees, so the
embedding starts from a tree type `XmlElem` mirroring an ElementTree
element: a tag, an attribute list, a text payload (an element whose
text is `None` in Python is modelled by the empty string, which is what
`findtext` collapses it to), and a list of child elements in document
order.  `find`/`findall` search direct children, `findallDeep` models
the `.//Tag` descendant search (pre-order, i.e. document order), and
`get` is attribute lookup.

Impure inputs are made explicit parameters: `date.today().isoformat()`
becomes the `todayISO : String` argument of the year-request builders,
and the QuickBooks COM channel of the pagination loops becomes a list
of response documents consumed one per request.
-/

namespace QBExport

inductive XmlElem : Type where
  | mk : String → List (String × String) → String → List XmlElem → XmlElem

def XmlElem.tag : XmlElem → String
  | .mk t _ _ _ => t

def XmlElem.attrs : XmlElem → List (String × String)
  | .mk _ a _ _ => a

def XmlElem.text : XmlElem → String
  | .mk _ _ x _ => x

def XmlElem.children : XmlElem → List XmlElem
  | .mk _ _ _ cs => cs

/-- `element.find(tag)`: first direct child with the given tag. -/
def XmlElem.find (e : XmlElem) (tag : String) : Option XmlElem :=
  e.children.find? (fun c => c.tag == tag)

/-- `element.findall(tag)`: all direct children with the given tag, in document order. -/
def XmlElem.findall (e : XmlElem) (tag : String) : List XmlElem :=
  e.children.filter (fun c => c.tag == tag)

/-- `element.findtext(tag, default)`: text of the first direct child with the
given tag, or the default when no such child exists. -/
def XmlElem.findtext (e : XmlElem) (tag dflt : String) : String :=
  match e.find tag with
  | some c => c.text
  | none => dflt

/-- `element.get(key)`: attribute lookup. -/
def XmlElem.get (e : XmlElem) (key : String) : Option String :=
  (e.attrs.find? (fun p => p.1 == key)).map Prod.snd

mutual

/-- Pre-order occurrences of `tag` in the subtree rooted at an element
(the element itself included). -/
def elemDeep (tag : String) : XmlElem → List XmlElem
  | .mk t a x cs => (if t = tag then [XmlElem.mk t a x cs] else []) ++ listDeep tag cs

/-- Pre-order occurrences of `tag` in a forest of elements. -/
def listDeep (tag : String) : List XmlElem → List XmlElem
  | [] => []
  | c :: cs => elemDeep tag c ++ listDeep tag cs

end

/-- `root.findall('.//Tag')`: all proper descendants with the given tag,
in document order (the root itself is not considered, matching ElementTree). -/
def XmlElem.findallDeep (e : XmlElem) (tag : String) : List XmlElem :=
  listDeep tag e.children

/-- `root.find('.//Tag')`: first descendant with the given tag. -/
def XmlElem.findDeep (e : XmlElem) (tag : String) : Option XmlElem :=
  (e.findallDeep tag).head?

/-! ### Address formatter (`parse_address`, identical in qb_inv.py, qb_so.py, qbpo.py) -/

/-- Model of the Python `str.strip()` used throughout the scripts: drop
leading and trailing whitespace.  Implemented structurally over the
character list so that concrete instances evaluate inside the kernel. -/
def pyStrip (s : String) : String :=
  String.mk (((s.data.dropWhile Char.isWhitespace).reverse.dropWhile Char.isWhitespace).reverse)

/-- The canonical nine-field order of `parse_address`. -/
def addressTags : List String :=
  ["Addr1", "Addr2", "Addr3", "Addr4", "Addr5", "City", "State", "PostalCode", "Country"]

/-- The accumulation loop of `parse_address`: for each tag in order, take the
trimmed `findtext` value and keep it only when non-blank. -/
def collectAddressParts (e : XmlElem) : List String → List String
  | [] => []
  | tag :: rest =>
    let text := pyStrip (e.findtext tag "")
    if text ≠ "" then text :: collectAddressParts e rest
    else collectAddressParts e rest

/-- `parse_address` from qb_inv.py / qb_so.py / qbpo.py: `None` gives the empty
string, otherwise the non-blank trimmed fields joined with a comma-space. -/
def parse_address : Option XmlElem → String
  | none => ""
  | some e => String.intercalate ", " (collectAddressParts e addressTags)

/-- Reading a display name through a reference block, e.g.
`so.find('CustomerRef')` then `findtext('FullName', '')`, empty when the
reference block is absent. -/
def refFullName (e : XmlElem) (refTag : String) : String :=
  match e.find refTag with
  | some r => r.findtext "FullName" ""
  | none => ""

/-! ### Sales-order flattener (`process_so_response`, qb_so.py) -/

structure SOHeader where
  soNumber : String
  customerName : String
  txnDate : String
  dueDate : String
  billTo : String
  shipTo : String
  subtotal : String
  salesTaxTotal : String
  totalAmount : String
deriving Repr, DecidableEq

structure SORecord extends SOHeader where
  lineDescription : String
  quantity : String
  rate : String
  amount : String
  itemRefFullName : String
deriving Repr, DecidableEq

/-- Header extraction of `process_so_response` (lines 92-101 of qb_so.py). -/
def soHeaderOf (so : XmlElem) : SOHeader :=
  { soNumber := so.findtext "RefNumber" ""
    customerName := refFullName so "CustomerRef"
    txnDate := so.findtext "TxnDate" ""
    dueDate := so.findtext "DueDate" ""
    billTo := parse_address (so.find "BillAddress")
    shipTo := parse_address (so.find "ShipAddress")
    subtotal := so.findtext "Subtotal" ""
    salesTaxTotal := so.findtext "SalesTaxTotal" ""
    totalAmount := so.findtext "TotalAmount" "" }

/-- Record built for a simple `SalesOrderLineRet` line item. -/
def soLineRecord (h : SOHeader) (li : XmlElem) : SORecord :=
  { toSOHeader := h
    lineDescription := li.findtext "Desc" ""
    quantity := li.findtext "Quantity" ""
    rate := li.findtext "Rate" ""
    amount := li.findtext "Amount" ""
    itemRefFullName := refFullName li "ItemRef" }

/-- Record built for a grouped `SalesOrderLineGroupRet` line item: the rate is
forced empty, the amount comes from the group `TotalAmount`, and the item
name is read through `ItemGroupRef`. -/
def soGroupRecord (h : SOHeader) (g : XmlElem) : SORecord :=
  { toSOHeader := h
    lineDescription := g.findtext "Desc" ""
    quantity := g.findtext "Quantity" ""
    rate := ""
    amount := g.findtext "TotalAmount" ""
    itemRefFullName := refFullName g "ItemGroupRef" }

/-- Header-only record emitted when a sales order has no line items. -/
def soHeaderOnlyRecord (h : SOHeader) : SORecord :=
  { toSOHeader := h
    lineDescription := ""
    quantity := ""
    rate := ""
    amount := ""
    itemRefFullName := "" }

/-- The per-transaction body of the `for so in sos` loop of
`process_so_response`: one header-only record when there are neither simple
nor grouped line items, otherwise all simple line records followed by all
grouped line records. -/
def soTxnRecords (so : XmlElem) : List SORecord :=
  let h := soHeaderOf so
  let line_items := so.findall "SalesOrderLineRet"
  let group_items := so.findall "SalesOrderLineGroupRet"
  if line_items.isEmpty && group_items.isEmpty then
    [soHeaderOnlyRecord h]
  else
    line_items.map (soLineRecord h) ++ group_items.map (soGroupRecord h)

/-- `process_so_response` (qb_so.py): scan for every `SalesOrderRet` and
accumulate the per-transaction records in document order. -/
def process_so_response (root : XmlElem) : List SORecord :=
  ((root.findallDeep "SalesOrderRet").map soTxnRecords).flatten

/-! ### Purchase-order flattener (`process_po_response`, qbpo.py) -/

structure POHeader where
  poNumber : String
  vendorName : String
  txnDate : String
  dueDate : String
  vendorAddress : String
  shipTo : String
  totalAmount : String
deriving Repr, DecidableEq

structure PORecord extends POHeader where
  lineDescription : String
  quantity : String
  rate : String
  amount : String
  itemRefFullName : String
deriving Repr, DecidableEq

/-- Header extraction of `process_po_response` (lines 90-97 of qbpo.py). -/
def poHeaderOf (po : XmlElem) : POHeader :=
  { poNumber := po.findtext "RefNumber" ""
    vendorName := refFullName po "VendorRef"
    txnDate := po.findtext "TxnDate" ""
    dueDate := po.findtext "DueDate" ""
    vendorAddress := parse_address (po.find "VendorAddress")
    shipTo := parse_address (po.find "ShipAddress")
    totalAmount := po.findtext "TotalAmount" "" }

/-- Record built for a simple `PurchaseOrderLineRet` line item. -/
def poLineRecord (h : POHeader) (li : XmlElem) : PORecord :=
  { toPOHeader := h
    lineDescription := li.findtext "Desc" ""
    quantity := li.findtext "Quantity" ""
    rate := li.findtext "Rate" ""
    amount := li.findtext "Amount" ""
    itemRefFullName := refFullName li "ItemRef" }

/-- Record built for a grouped `PurchaseOrderLineGroupRet` line item. -/
def poGroupRecord (h : POHeader) (g : XmlElem) : PORecord :=
  { toPOHeader := h
    lineDescription := g.findtext "Desc" ""
    quantity := g.findtext "Quantity" ""
    rate := ""
    amount := g.findtext "TotalAmount" ""
    itemRefFullName := refFullName g "ItemGroupRef" }

/-- Header-only record emitted when a purchase order has no line items. -/
def poHeaderOnlyRecord (h : POHeader) : PORecord :=
  { toPOHeader := h
    lineDescription := ""
    quantity := ""
    rate := ""
    amount := ""
    itemRefFullName := "" }

/-- The per-transaction body of the `for po in pos` loop of
`process_po_response`. -/
def poTxnRecords (po : XmlElem) : List PORecord :=
  let h := poHeaderOf po
  let line_items := po.findall "PurchaseOrderLineRet"
  let group_items := po.findall "PurchaseOrderLineGroupRet"
  if line_items.isEmpty && group_items.isEmpty then
    [poHeaderOnlyRecord h]
  else
    line_items.map (poLineRecord h) ++ group_items.map (poGroupRecord h)

/-- `process_po_response` (qbpo.py). -/
def process_po_response (root : XmlElem) : List PORecord :=
  ((root.findallDeep "PurchaseOrderRet").map poTxnRecords).flatten

/-! ### Invoice flattener (`process_invoice_response`, qb_inv.py) -/

structure InvHeader where
  invoiceNumber : String
  customerName : String
  invoiceDate : String
  poNumber : String
  shipTo : String
deriving Repr, DecidableEq

structure InvRecord extends InvHeader where
  lineDescription : String
  quantity : String
  rate : String
  amount : String
  itemRefFullName : String
deriving Repr, DecidableEq

/-- Header extraction of `process_invoice_response` (lines 64-73 of qb_inv.py). -/
def invHeaderOf (inv : XmlElem) : InvHeader :=
  { invoiceNumber := inv.findtext "RefNumber" ""
    customerName := refFullName inv "CustomerRef"
    invoiceDate := inv.findtext "TxnDate" ""
    poNumber := inv.findtext "PONumber" ""
    shipTo := parse_address (inv.find "ShipAddress") }

/-- Record built for an `InvoiceLineRet` line item. -/
def invLineRecord (h : InvHeader) (li : XmlElem) : InvRecord :=
  { toInvHeader := h
    lineDescription := li.findtext "Desc" ""
    quantity := li.findtext "Quantity" ""
    rate := li.findtext "Rate" ""
    amount := li.findtext "Amount" ""
    itemRefFullName := refFullName li "ItemRef" }

/-- Header-only record emitted when an invoice has no `InvoiceLineRet` items. -/
def invHeaderOnlyRecord (h : InvHeader) : InvRecord :=
  { toInvHeader := h
    lineDescription := ""
    quantity := ""
    rate := ""
    amount := ""
    itemRefFullName := "" }

/-- The per-transaction body of the `for inv in ...` loop of
`process_invoice_response`.  Note that qb_inv.py only enumerates
`InvoiceLineRet`: no grouped line-item element is consulted. -/
def invTxnRecords (inv : XmlElem) : List InvRecord :=
  let h := invHeaderOf inv
  let line_items := inv.findall "InvoiceLineRet"
  if line_items.isEmpty then
    [invHeaderOnlyRecord h]
  else
    line_items.map (invLineRecord h)

/-- `process_invoice_response` (qb_inv.py). -/
def process_invoice_response (root : XmlElem) : List InvRecord :=
  ((root.findallDeep "InvoiceRet").map invTxnRecords).flatten

/-! ### Ship-to extractor of qb_shipto.py (`parse_shipto` keyed on `ShipToAddress`
directly under `CustomerRet`, with the degenerate-block filter) -/

namespace QbShipto

structure ShipToRecord where
  customer : String
  shipToName : String
  addr1 : String
  addr2 : String
  addr3 : String
  addr4 : String
  addr5 : String
  city : String
  state : String
  postalCode : String
  country : String
  note : String
  defaultShipTo : String
deriving Repr, DecidableEq

/-- The record dictionary built for one `ShipToAddress` block
(qb_shipto.py lines 40-54). -/
def mkShipToRecord (name : String) (st : XmlElem) : ShipToRecord :=
  { customer := name
    shipToName := pyStrip (st.findtext "Name" "")
    addr1 := pyStrip (st.findtext "Addr1" "")
    addr2 := pyStrip (st.findtext "Addr2" "")
    addr3 := pyStrip (st.findtext "Addr3" "")
    addr4 := pyStrip (st.findtext "Addr4" "")
    addr5 := pyStrip (st.findtext "Addr5" "")
    city := pyStrip (st.findtext "City" "")
    state := pyStrip (st.findtext "State" "")
    postalCode := pyStrip (st.findtext "PostalCode" "")
    country := pyStrip (st.findtext "Country" "")
    note := pyStrip (st.findtext "Note" "")
    defaultShipTo := pyStrip (st.findtext "DefaultShipTo" "") }

/-- The retention test of qb_shipto.py line 57:
`any([record['ShipToName'], record['Addr1'], record['City']])`. -/
def keepShipTo (r : ShipToRecord) : Bool :=
  (r.shipToName != "") || (r.addr1 != "") || (r.city != "")

/-- Records contributed by one `CustomerRet` element. -/
def custShipToRecords (cust : XmlElem) : List ShipToRecord :=
  let name := pyStrip (cust.findtext "FullName" "")
  ((cust.findall "ShipToAddress").map (mkShipToRecord name)).filter keepShipTo

/-- `parse_shipto` (qb_shipto.py). -/
def parse_shipto (root : XmlElem) : List ShipToRecord :=
  ((root.findallDeep "CustomerRet").map custShipToRecords).flatten

/-- `build_qbxml_customers_request` (qb_shipto.py): a `CustomerQueryRq`
carrying the iterator mode, the iterator id when it is truthy (neither
`None` nor empty), and a `MaxReturned` page cap of 100. -/
def build_qbxml_customers_request (iterator_mode : String) (iterator_id : Option String) : String :=
  let iterator_attr :=
    " iterator=\"" ++ iterator_mode ++ "\"" ++
    (match iterator_id with
     | some i => if i ≠ "" then " iteratorID=\"" ++ i ++ "\"" else ""
     | none => "")
  "<?xml version=\"1.0\" encoding=\"utf-8\"?>\n" ++
  "<?qbxml version=\"16.0\"?>\n" ++
  "<QBXML>\n" ++
  "  <QBXMLMsgsRq onError=\"continueOnError\">\n" ++
  ("    <CustomerQueryRq requestID=\"1\"" ++ iterator_attr ++ ">\n") ++
  "      <MaxReturned>100</MaxReturned>\n" ++
  "    </CustomerQueryRq>\n" ++
  "  </QBXMLMsgsRq>\n" ++
  "</QBXML>"

end QbShipto

/-! ### Ship-to extractor of qbinv_all.py (`parse_shipto` keyed on a nested
`ShipToAddressList`, joining six fields, with no empty-record filter) -/

namespace QbinvAll

/-- The six-field order of the qbinv_all.py join (`Addr3`, `Addr4`, `Addr5`
do not appear). -/
def shipToTags : List String :=
  ["Addr1", "Addr2", "City", "State", "PostalCode", "Country"]

/-- The single joined entry built for one `ShipToAddress` block
(qbinv_all.py lines 41-46). -/
def shipToEntry (st : XmlElem) : String :=
  let label := pyStrip (st.findtext "Name" "")
  let parts := shipToTags.map (fun tag => pyStrip (st.findtext tag ""))
  let address := String.intercalate ", " (parts.filter (fun p => p != ""))
  if label ≠ "" then label ++ ": " ++ address else address

/-- Records contributed by one `CustomerRet` element: zero when there is no
`ShipToAddressList` child, otherwise one record per `ShipToAddress`,
unconditionally. -/
def custRecords (cust : XmlElem) : List (String × String) :=
  let name := pyStrip (cust.findtext "FullName" "")
  match cust.find "ShipToAddressList" with
  | none => []
  | some lst => (lst.findall "ShipToAddress").map (fun st => (name, shipToEntry st))

/-- `parse_shipto` (qbinv_all.py). -/
def parse_shipto (root : XmlElem) : List (String × String) :=
  ((root.findallDeep "CustomerRet").map custRecords).flatten

/-- `build_qbxml_customers_request` (qbinv_all.py): same iterator handling as
qb_shipto.py but restricting returned fields with `IncludeRetElement`. -/
def build_qbxml_customers_request (iterator_mode : String) (iterator_id : Option String) : String :=
  let iterator_attr :=
    " iterator=\"" ++ iterator_mode ++ "\"" ++
    (match iterator_id with
     | some i => if i ≠ "" then " iteratorID=\"" ++ i ++ "\"" else ""
     | none => "")
  "<?xml version=\"1.0\" encoding=\"utf-8\"?>\n" ++
  "<?qbxml version=\"16.0\"?>\n" ++
  "<QBXML>\n" ++
  "  <QBXMLMsgsRq onError=\"continueOnError\">\n" ++
  ("    <CustomerQueryRq requestID=\"1\"" ++ iterator_attr ++ ">\n") ++
  "      <IncludeRetElement>FullName</IncludeRetElement>\n" ++
  "      <IncludeRetElement>ShipToAddressList</IncludeRetElement>\n" ++
  "      <MaxReturned>100</MaxReturned>\n" ++
  "    </CustomerQueryRq>\n" ++
  "  </QBXMLMsgsRq>\n" ++
  "</QBXML>"

end QbinvAll

/-! ### Single-identifier request builders -/

/-- `build_qbxml_invoice_request` (qb_inv.py): the identifier is spliced
verbatim between the `RefNumber` tags; no XML escaping is performed. -/
def build_qbxml_invoice_request (invoice_number : String) : String :=
  "<?xml version=\"1.0\" encoding=\"utf-8\"?>\n" ++
  "<?qbxml version=\"16.0\"?>\n" ++
  "<QBXML>\n" ++
  "  <QBXMLMsgsRq onError=\"continueOnError\">\n" ++
  "    <InvoiceQueryRq requestID=\"1\">\n" ++
  ("      <RefNumber>" ++ invoice_number ++ "</RefNumber>\n") ++
  "      <IncludeLineItems>1</IncludeLineItems>\n" ++
  "    </InvoiceQueryRq>\n" ++
  "  </QBXMLMsgsRq>\n" ++
  "</QBXML>"

/-- `build_qbxml_so_request` (qb_so.py). -/
def build_qbxml_so_request (so_number : String) : String :=
  "<?xml version=\"1.0\" encoding=\"utf-8\"?>\n" ++
  "<?qbxml version=\"16.0\"?>\n" ++
  "<QBXML>\n" ++
  "  <QBXMLMsgsRq onError=\"continueOnError\">\n" ++
  "    <SalesOrderQueryRq requestID=\"1\">\n" ++
  ("      <RefNumber>" ++ so_number ++ "</RefNumber>\n") ++
  "      <IncludeLineItems>1</IncludeLineItems>\n" ++
  "    </SalesOrderQueryRq>\n" ++
  "  </QBXMLMsgsRq>\n" ++
  "</QBXML>"

/-- `build_qbxml_po_request` (qbpo.py). -/
def build_qbxml_po_request (po_number : String) : String :=
  "<?xml version=\"1.0\" encoding=\"utf-8\"?>\n" ++
  "<?qbxml version=\"16.0\"?>\n" ++
  "<QBXML>\n" ++
  "  <QBXMLMsgsRq onError=\"continueOnError\">\n" ++
  "    <PurchaseOrderQueryRq requestID=\"1\">\n" ++
  ("      <RefNumber>" ++ po_number ++ "</RefNumber>\n") ++
  "      <IncludeLineItems>1</IncludeLineItems>\n" ++
  "    </PurchaseOrderQueryRq>\n" ++
  "  </QBXMLMsgsRq>\n" ++
  "</QBXML>"

/-! ### Year request builders.  The scripts read `date.today().isoformat()`
directly; the embedding passes that value as the explicit `todayISO`
parameter. -/

/-- `build_qbxml_year_invoices_request` (qb_inv.py). -/
def build_qbxml_year_invoices_request (year todayISO : String) : String :=
  let from_date := year ++ "-01-01"
  let to_date := todayISO
  "<?xml version=\"1.0\" encoding=\"utf-8\"?>\n" ++
  "<?qbxml version=\"16.0\"?>\n" ++
  "<QBXML>\n" ++
  "  <QBXMLMsgsRq onError=\"continueOnError\">\n" ++
  "    <InvoiceQueryRq requestID=\"1\">\n" ++
  "      <TxnDateRangeFilter>\n" ++
  ("        <FromTxnDate>" ++ from_date ++ "</FromTxnDate>\n") ++
  ("        <ToTxnDate>" ++ to_date ++ "</ToTxnDate>\n") ++
  "      </TxnDateRangeFilter>\n" ++
  "      <IncludeLineItems>1</IncludeLineItems>\n" ++
  "    </InvoiceQueryRq>\n" ++
  "  </QBXMLMsgsRq>\n" ++
  "</QBXML>"

/-- `build_qbxml_year_so_request` (qb_so.py). -/
def build_qbxml_year_so_request (year todayISO : String) : String :=
  let from_date := year ++ "-01-01"
  let to_date := todayISO
  "<?xml version=\"1.0\" encoding=\"utf-8\"?>\n" ++
  "<?qbxml version=\"16.0\"?>\n" ++
  "<QBXML>\n" ++
  "  <QBXMLMsgsRq onError=\"continueOnError\">\n" ++
  "    <SalesOrderQueryRq requestID=\"1\">\n" ++
  "      <TxnDateRangeFilter>\n" ++
  ("        <FromTxnDate>" ++ from_date ++ "</FromTxnDate>\n") ++
  ("        <ToTxnDate>" ++ to_date ++ "</ToTxnDate>\n") ++
  "      </TxnDateRangeFilter>\n" ++
  "      <IncludeLineItems>1</IncludeLineItems>\n" ++
  "    </SalesOrderQueryRq>\n" ++
  "  </QBXMLMsgsRq>\n" ++
  "</QBXML>"

/-- `build_qbxml_year_po_request` (qbpo.py). -/
def build_qbxml_year_po_request (year todayISO : String) : String :=
  let from_date := year ++ "-01-01"
  let to_date := todayISO
  "<?xml version=\"1.0\" encoding=\"utf-8\"?>\n" ++
  "<?qbxml version=\"16.0\"?>\n" ++
  "<QBXML>\n" ++
  "  <QBXMLMsgsRq onError=\"continueOnError\">\n" ++
  "    <PurchaseOrderQueryRq requestID=\"1\">\n" ++
  "      <TxnDateRangeFilter>\n" ++
  ("        <FromTxnDate>" ++ from_date ++ "</FromTxnDate>\n") ++
  ("        <ToTxnDate>" ++ to_date ++ "</ToTxnDate>\n") ++
  "      </TxnDateRangeFilter>\n" ++
  "      <IncludeLineItems>1</IncludeLineItems>\n" ++
  "    </PurchaseOrderQueryRq>\n" ++
  "  </QBXMLMsgsRq>\n" ++
  "</QBXML>"

/-! ### Substring utilities used to state textual properties of the
generated documents -/

/-- Substring search over character lists. -/
def hasSubstrAux (pat : List Char) : List Char → Bool
  | [] => pat.isEmpty
  | c :: rest => pat.isPrefixOf (c :: rest) || hasSubstrAux pat rest

/-- Whether `pat` occurs as a contiguous substring of `s`. -/
def hasSubstr (s pat : String) : Bool :=
  hasSubstrAux pat.data s.data

/-- Necessary condition for XML well-formedness of the element content
appearing in these documents: every `<` must start markup, i.e. be
immediately followed by a name character, `/`, `!` or `?`.  A raw `<`
followed by anything else (or ending the document) makes the document
unparseable as XML. -/
def xmlLtOkAux : List Char → Bool
  | [] => true
  | [c] => c != '<'
  | '<' :: c :: rest => (c.isAlpha || c == '/' || c == '!' || c == '?') && xmlLtOkAux (c :: rest)
  | _ :: c :: rest => xmlLtOkAux (c :: rest)

/-- The markup check applied to a whole document string. -/
def xmlLtOk (s : String) : Bool :=
  xmlLtOkAux s.data

/-! ### Pagination driver (the `while True` loops of qb_shipto.py `main` and
qbinv_all.py `main`).  The COM channel is modelled as the list of response
documents it returns, one per issued request; a request is recorded as the
cursor mode and optional token it carries, which determine the request
document through `build_qbxml_customers_request`. -/

/-- `rs = root.find('.//CustomerQueryRs')` followed by
`rs.get('iteratorRemainingCount')`, with a missing `CustomerQueryRs`
collapsed to a missing attribute. -/
def remainingCount (resp : XmlElem) : Option String :=
  match resp.findDeep "CustomerQueryRs" with
  | none => none
  | some rs => rs.get "iteratorRemainingCount"

/-- The loop continues unless `rs` is missing or the remaining count is
absent or the string `"0"` (qb_shipto.py line 142, qbinv_all.py line 82). -/
def continuesB (resp : XmlElem) : Bool :=
  match remainingCount resp with
  | none => false
  | some s => s != "0"

/-- `iterator_id = rs.get('iteratorID')` read from a response. -/
def respIterId (resp : XmlElem) : Option String :=
  match resp.findDeep "CustomerQueryRs" with
  | none => none
  | some rs => rs.get "iteratorID"

structure CustRequest where
  mode : String
  token : Option String
deriving Repr, DecidableEq

/-- The request issued for a given held token:
`mode = 'Start' if iterator_id is None else 'Continue'`. -/
def reqOf (tok : Option String) : CustRequest :=
  { mode := if tok.isNone then "Start" else "Continue", token := tok }

/-- The request sequence the loop issues against a channel: one request per
consumed response, each passing on the token read from the previous
response. -/
def mkReqs : Option String → List XmlElem → List CustRequest
  | _, [] => []
  | tok, r :: rest => reqOf tok :: mkReqs (respIterId r) rest

/-- The batch loop of `main`: issue a request, flatten the response with
`f`, accumulate, and continue with the response's iterator id while the
response reports a non-exhausted count.  The channel is the list of
responses; the loop ends when it stops requesting (the empty-channel case
cannot be reached in the terminating scenarios considered here). -/
def paginationLoop {α : Type} (f : XmlElem → List α) :
    Option String → List XmlElem → List CustRequest × List α
  | _, [] => ([], [])
  | iterId, resp :: rest =>
    let recs := f resp
    if continuesB resp then
      let out := paginationLoop f (respIterId resp) rest
      (reqOf iterId :: out.1, recs ++ out.2)
    else
      ([reqOf iterId], recs)

/-! ### Named document segments, used to state how the builders splice
user-controlled values into fixed templates -/

/-- Everything of `build_qbxml_invoice_request` before the spliced identifier. -/
def invoiceReqPre : String :=
  "<?xml version=\"1.0\" encoding=\"utf-8\"?>\n" ++
  "<?qbxml version=\"16.0\"?>\n" ++
  "<QBXML>\n" ++
  "  <QBXMLMsgsRq onError=\"continueOnError\">\n" ++
  "    <InvoiceQueryRq requestID=\"1\">\n" ++
  "      <RefNumber>"

/-- Everything of `build_qbxml_invoice_request` after the spliced identifier. -/
def invoiceReqPost : String :=
  "</RefNumber>\n" ++
  "      <IncludeLineItems>1</IncludeLineItems>\n" ++
  "    </InvoiceQueryRq>\n" ++
  "  </QBXMLMsgsRq>\n" ++
  "</QBXML>"

/-- Everything of `build_qbxml_so_request` before the spliced identifier. -/
def soReqPre : String :=
  "<?xml version=\"1.0\" encoding=\"utf-8\"?>\n" ++
  "<?qbxml version=\"16.0\"?>\n" ++
  "<QBXML>\n" ++
  "  <QBXMLMsgsRq onError=\"continueOnError\">\n" ++
  "    <SalesOrderQueryRq requestID=\"1\">\n" ++
  "      <RefNumber>"

/-- Everything of `build_qbxml_so_request` after the spliced identifier. -/
def soReqPost : String :=
  "</RefNumber>\n" ++
  "      <IncludeLineItems>1</IncludeLineItems>\n" ++
  "    </SalesOrderQueryRq>\n" ++
  "  </QBXMLMsgsRq>\n" ++
  "</QBXML>"

/-- Everything of `build_qbxml_po_request` before the spliced identifier. -/
def poReqPre : String :=
  "<?xml version=\"1.0\" encoding=\"utf-8\"?>\n" ++
  "<?qbxml version=\"16.0\"?>\n" ++
  "<QBXML>\n" ++
  "  <QBXMLMsgsRq onError=\"continueOnError\">\n" ++
  "    <PurchaseOrderQueryRq requestID=\"1\">\n" ++
  "      <RefNumber>"

/-- Everything of `build_qbxml_po_request` after the spliced identifier. -/
def poReqPost : String :=
  "</RefNumber>\n" ++
  "      <IncludeLineItems>1</IncludeLineItems>\n" ++
  "    </PurchaseOrderQueryRq>\n" ++
  "  </QBXMLMsgsRq>\n" ++
  "</QBXML>"

/-- Year request for invoices: everything before the from-date. -/
def invYearPre : String :=
  "<?xml version=\"1.0\" encoding=\"utf-8\"?>\n" ++
  "<?qbxml version=\"16.0\"?>\n" ++
  "<QBXML>\n" ++
  "  <QBXMLMsgsRq onError=\"continueOnError\">\n" ++
  "    <InvoiceQueryRq requestID=\"1\">\n" ++
  "      <TxnDateRangeFilter>\n" ++
  "        <FromTxnDate>"

/-- Year request for sales orders: everything before the from-date. -/
def soYearPre : String :=
  "<?xml version=\"1.0\" encoding=\"utf-8\"?>\n" ++
  "<?qbxml version=\"16.0\"?>\n" ++
  "<QBXML>\n" ++
  "  <QBXMLMsgsRq onError=\"continueOnError\">\n" ++
  "    <SalesOrderQueryRq requestID=\"1\">\n" ++
  "      <TxnDateRangeFilter>\n" ++
  "        <FromTxnDate>"

/-- Year request for purchase orders: everything before the from-date. -/
def poYearPre : String :=
  "<?xml version=\"1.0\" encoding=\"utf-8\"?>\n" ++
  "<?qbxml version=\"16.0\"?>\n" ++
  "<QBXML>\n" ++
  "  <QBXMLMsgsRq onError=\"continueOnError\">\n" ++
  "    <PurchaseOrderQueryRq requestID=\"1\">\n" ++
  "      <TxnDateRangeFilter>\n" ++
  "        <FromTxnDate>"

/-- Year request: the segment between the from-date and the to-date
(identical in all three scripts). -/
def yearReqMid : String :=
  "</FromTxnDate>\n" ++
  "        <ToTxnDate>"

/-- Year request for invoices: everything after the to-date. -/
def invYearPost : String :=
  "</ToTxnDate>\n" ++
  "      </TxnDateRangeFilter>\n" ++
  "      <IncludeLineItems>1</IncludeLineItems>\n" ++
  "    </InvoiceQueryRq>\n" ++
  "  </QBXMLMsgsRq>\n" ++
  "</QBXML>"

/-- Year request for sales orders: everything after the to-date. -/
def soYearPost : String :=
  "</ToTxnDate>\n" ++
  "      </TxnDateRangeFilter>\n" ++
  "      <IncludeLineItems>1</IncludeLineItems>\n" ++
  "    </SalesOrderQueryRq>\n" ++
  "  </QBXMLMsgsRq>\n" ++
  "</QBXML>"

/-- Year request for purchase orders: everything after the to-date. -/
def poYearPost : String :=
  "</ToTxnDate>\n" ++
  "      </TxnDateRangeFilter>\n" ++
  "      <IncludeLineItems>1</IncludeLineItems>\n" ++
  "    </PurchaseOrderQueryRq>\n" ++
  "  </QBXMLMsgsRq>\n" ++
  "</QBXML>"

/-- Continue-mode customer request of qb_shipto.py: everything before the
spliced iterator id. -/
def custContPre : String :=
  "<?xml version=\"1.0\" encoding=\"utf-8\"?>\n" ++
  "<?qbxml version=\"16.0\"?>\n" ++
  "<QBXML>\n" ++
  "  <QBXMLMsgsRq onError=\"continueOnError\">\n" ++
  "    <CustomerQueryRq requestID=\"1\"" ++
  " iterator=\"" ++ "Continue" ++ "\"" ++
  " iteratorID=\""

/-- Continue-mode customer request of qb_shipto.py: everything after the
spliced iterator id. -/
def custContPost : String :=
  "\"" ++ ">\n" ++
  "      <MaxReturned>100</MaxReturned>\n" ++
  "    </CustomerQueryRq>\n" ++
  "  </QBXMLMsgsRq>\n" ++
  "</QBXML>"

/-! ### Concrete documents used as counterexamples and witnesses -/

/-- Invoice transaction holding one simple and one grouped line item. -/
def invCexLine : XmlElem := .mk "InvoiceLineRet" [] "" [.mk "Desc" [] "widget" []]

def invCexGroup : XmlElem :=
  .mk "InvoiceLineGroupRet" [] "" [.mk "Desc" [] "bundle" [], .mk "TotalAmount" [] "25.00" []]

def invCexTxn : XmlElem :=
  .mk "InvoiceRet" [] "" [.mk "RefNumber" [] "INV-1" [], invCexLine, invCexGroup]

def invCexDoc : XmlElem :=
  .mk "QBXML" [] "" [.mk "QBXMLMsgsRs" [] "" [.mk "InvoiceQueryRs" [] "" [invCexTxn]]]

/-- Sales order whose grouped line item precedes its simple line item in
document order. -/
def soCexGroup : XmlElem := .mk "SalesOrderLineGroupRet" [] "" [.mk "Desc" [] "g" []]

def soCexLine : XmlElem := .mk "SalesOrderLineRet" [] "" [.mk "Desc" [] "s" []]

def soCexTxn : XmlElem := .mk "SalesOrderRet" [] "" [soCexGroup, soCexLine]

def soCexDoc : XmlElem := .mk "QBXML" [] "" [soCexTxn]

/-- Sales order with two simple line items followed by one grouped item. -/
def wLine1 : XmlElem := .mk "SalesOrderLineRet" [] "" [.mk "Desc" [] "A" []]

def wLine2 : XmlElem := .mk "SalesOrderLineRet" [] "" [.mk "Desc" [] "B" []]

def wGroup1 : XmlElem := .mk "SalesOrderLineGroupRet" [] "" [.mk "Desc" [] "G" []]

def wSO : XmlElem := .mk "SalesOrderRet" [] "" [wLine1, wLine2, wGroup1]

def wSODoc : XmlElem := .mk "QBXML" [] "" [wSO]

/-- Sales order with no line items at all. -/
def emptySO : XmlElem := .mk "SalesOrderRet" [] "" [.mk "RefNumber" [] "SO-9" []]

def emptySODoc : XmlElem := .mk "QBXML" [] "" [emptySO]

/-- Minimal purchase order and invoice with one simple line item each. -/
def wPO : XmlElem := .mk "PurchaseOrderRet" [] "" [.mk "PurchaseOrderLineRet" [] "" []]

def wPODoc : XmlElem := .mk "QBXML" [] "" [wPO]

def wInv : XmlElem := .mk "InvoiceRet" [] "" [.mk "InvoiceLineRet" [] "" []]

def wInvDoc : XmlElem := .mk "QBXML" [] "" [wInv]

/-- Customer with one non-degenerate ship-to block. -/
def wShipToAddr : XmlElem :=
  .mk "ShipToAddress" [] "" [.mk "Name" [] "HQ" [], .mk "Addr1" [] "1 Main St" []]

def wCust : XmlElem :=
  .mk "CustomerRet" [] "" [.mk "FullName" [] "Acme" [], wShipToAddr]

/-- Ship-to block with label, Addr1 and City all blank but a populated Note
and default flag, and the customer holding it. -/
def degShipToAddr : XmlElem :=
  .mk "ShipToAddress" [] "" [.mk "Note" [] "call first" [],
    .mk "DefaultShipTo" [] "true" []]

def degenerateCust : XmlElem :=
  .mk "CustomerRet" [] "" [.mk "FullName" [] "Degen" [], degShipToAddr]

/-- Paginated customer responses: one that reports five remaining records
and carries an iterator id, and one that reports zero. -/
def rsCont : XmlElem :=
  .mk "CustomerQueryRs" [("iteratorRemainingCount", "5"), ("iteratorID", "IT1")] "" [wCust]

def respCont : XmlElem := .mk "QBXML" [] "" [.mk "QBXMLMsgsRs" [] "" [rsCont]]

def rsDone : XmlElem :=
  .mk "CustomerQueryRs" [("iteratorRemainingCount", "0")] "" [degenerateCust]

def respDone : XmlElem := .mk "QBXML" [] "" [.mk "QBXMLMsgsRs" [] "" [rsDone]]

/-- Ship-to blocks for the qbinv_all.py extractor: an entirely blank block,
and one populated only in `Addr3` (a field that extractor ignores). -/
def blankShipTo : XmlElem := .mk "ShipToAddress" [] "" []

def addr3Only : XmlElem := .mk "ShipToAddress" [] "" [.mk "Addr3" [] "Suite 5" []]

def blankList : XmlElem := .mk "ShipToAddressList" [] "" [blankShipTo]

def blankListCust : XmlElem :=
  .mk "CustomerRet" [] "" [.mk "FullName" [] "Beta" [], blankList]

def noListCust : XmlElem := .mk "CustomerRet" [] "" [.mk "FullName" [] "Gamma" []]

def qbinvAllDoc : XmlElem := .mk "QBXML" [] "" [blankListCust, noListCust]

/-- Address block with two populated fields, one carrying surrounding
whitespace. -/
def wAddr : XmlElem :=
  .mk "ShipAddress" [] "" [.mk "Addr1" [] " 1 Main St " [], .mk "City" [] "Springfield" []]

/-! ## Helper lemmas -/

/-- The accumulation loop of `parse_address` computes the filtered map of the
trimmed field values, in field order. -/
theorem collectAddressParts_eq (e : XmlElem) :
    ∀ tags : List String,
      collectAddressParts e tags =
        (tags.map (fun t => pyStrip (e.findtext t ""))).filter (fun s => s != "") := by
  intro tags
  induction tags with
  | nil => rfl
  | cons tag rest ih =>
    by_cases h : pyStrip (e.findtext tag "") = "" <;>
      simp [collectAddressParts, h, List.filter_cons, ih]

/-- Cardinality of the per-transaction sales-order record list. -/
theorem soTxnRecords_length (so : XmlElem) :
    (soTxnRecords so).length =
      max ((so.findall "SalesOrderLineRet").length + (so.findall "SalesOrderLineGroupRet").length)
        1 := by
  simp only [soTxnRecords]
  by_cases h1 : so.findall "SalesOrderLineRet" = [] <;>
    by_cases h2 : so.findall "SalesOrderLineGroupRet" = []
  · simp [h1, h2]
  · have : 0 < (so.findall "SalesOrderLineGroupRet").length := List.length_pos.mpr h2
    simp [h1, h2, List.isEmpty_iff]
    omega
  · have : 0 < (so.findall "SalesOrderLineRet").length := List.length_pos.mpr h1
    simp [h1, h2, List.isEmpty_iff]
    omega
  · have : 0 < (so.findall "SalesOrderLineRet").length := List.length_pos.mpr h1
    simp [h1, h2, List.isEmpty_iff]
    omega

/-- When a sales order has some line item, the per-transaction list is the
simple records followed by the grouped records. -/
theorem soTxnRecords_of_nonempty (so : XmlElem)
    (h : ¬(so.findall "SalesOrderLineRet" = [] ∧ so.findall "SalesOrderLineGroupRet" = [])) :
    soTxnRecords so =
      (so.findall "SalesOrderLineRet").map (soLineRecord (soHeaderOf so)) ++
        (so.findall "SalesOrderLineGroupRet").map (soGroupRecord (soHeaderOf so)) := by
  simp only [soTxnRecords]
  cases hL : (so.findall "SalesOrderLineRet").isEmpty <;>
    cases hG : (so.findall "SalesOrderLineGroupRet").isEmpty <;>
      simp_all [List.isEmpty_iff]

/-- Every sales-order record repeats the transaction header verbatim. -/
theorem soTxnRecords_header (so : XmlElem) :
    ∀ r ∈ soTxnRecords so, r.toSOHeader = soHeaderOf so := by
  intro r hr
  simp only [soTxnRecords] at hr
  split at hr
  · simp only [List.mem_singleton] at hr
    subst hr; rfl
  · rcases List.mem_append.mp hr with h | h <;>
      · obtain ⟨li, -, rfl⟩ := List.mem_map.mp h
        rfl

/-- Cardinality of the per-transaction purchase-order record list. -/
theorem poTxnRecords_length (po : XmlElem) :
    (poTxnRecords po).length =
      max ((po.findall "PurchaseOrderLineRet").length +
        (po.findall "PurchaseOrderLineGroupRet").length) 1 := by
  simp only [poTxnRecords]
  by_cases h1 : po.findall "PurchaseOrderLineRet" = [] <;>
    by_cases h2 : po.findall "PurchaseOrderLineGroupRet" = []
  · simp [h1, h2]
  · have : 0 < (po.findall "PurchaseOrderLineGroupRet").length := List.length_pos.mpr h2
    simp [h1, h2, List.isEmpty_iff]
    omega
  · have : 0 < (po.findall "PurchaseOrderLineRet").length := List.length_pos.mpr h1
    simp [h1, h2, List.isEmpty_iff]
    omega
  · have : 0 < (po.findall "PurchaseOrderLineRet").length := List.length_pos.mpr h1
    simp [h1, h2, List.isEmpty_iff]
    omega

/-- When a purchase order has some line item, the per-transaction list is the
simple records followed by the grouped records. -/
theorem poTxnRecords_of_nonempty (po : XmlElem)
    (h : ¬(po.findall "PurchaseOrderLineRet" = [] ∧
      po.findall "PurchaseOrderLineGroupRet" = [])) :
    poTxnRecords po =
      (po.findall "PurchaseOrderLineRet").map (poLineRecord (poHeaderOf po)) ++
        (po.findall "PurchaseOrderLineGroupRet").map (poGroupRecord (poHeaderOf po)) := by
  simp only [poTxnRecords]
  cases hL : (po.findall "PurchaseOrderLineRet").isEmpty <;>
    cases hG : (po.findall "PurchaseOrderLineGroupRet").isEmpty <;>
      simp_all [List.isEmpty_iff]

/-- Every purchase-order record repeats the transaction header verbatim. -/
theorem poTxnRecords_header (po : XmlElem) :
    ∀ r ∈ poTxnRecords po, r.toPOHeader = poHeaderOf po := by
  intro r hr
  simp only [poTxnRecords] at hr
  split at hr
  · simp only [List.mem_singleton] at hr
    subst hr; rfl
  · rcases List.mem_append.mp hr with h | h <;>
      · obtain ⟨li, -, rfl⟩ := List.mem_map.mp h
        rfl

/-- Cardinality of the per-transaction invoice record list: grouped line
items play no role in qb_inv.py. -/
theorem invTxnRecords_length (inv : XmlElem) :
    (invTxnRecords inv).length = max (inv.findall "InvoiceLineRet").length 1 := by
  simp only [invTxnRecords]
  by_cases h : inv.findall "InvoiceLineRet" = []
  · simp [h]
  · have : 0 < (inv.findall "InvoiceLineRet").length := List.length_pos.mpr h
    simp [h, List.isEmpty_iff]
    omega

/-- When an invoice has some `InvoiceLineRet`, the per-transaction list maps
over exactly those elements. -/
theorem invTxnRecords_of_nonempty (inv : XmlElem) (h : ¬inv.findall "InvoiceLineRet" = []) :
    invTxnRecords inv = (inv.findall "InvoiceLineRet").map (invLineRecord (invHeaderOf inv)) := by
  simp [invTxnRecords, List.isEmpty_iff, h]

/-- Every invoice record repeats the transaction header verbatim. -/
theorem invTxnRecords_header (inv : XmlElem) :
    ∀ r ∈ invTxnRecords inv, r.toInvHeader = invHeaderOf inv := by
  intro r hr
  simp only [invTxnRecords] at hr
  split at hr
  · simp only [List.mem_singleton] at hr
    subst hr; rfl
  · obtain ⟨li, -, rfl⟩ := List.mem_map.mp hr
    rfl

/-! ## Claims -/

/-- C5: `parse_address` of an absent block is the empty string; of a present
block it is exactly the non-blank trimmed values of the nine canonical
fields, taken in canonical field order and joined by the two-character
separator `", "`.  The joined list consists of the k non-blank values only
(k being the count of non-blank fields), and every joined segment is
non-empty, so the join introduces no leading, trailing or doubled
separator.  The function is total, matching the no-raise contract. -/
theorem parse_address_spec :
    parse_address none = "" ∧
    ∀ e : XmlElem,
      parse_address (some e) =
        String.intercalate ", "
          ((addressTags.map (fun t => pyStrip (e.findtext t ""))).filter (fun s => s != "")) ∧
      ((addressTags.map (fun t => pyStrip (e.findtext t ""))).filter (fun s => s != "")).length =
        (addressTags.map (fun t => pyStrip (e.findtext t ""))).countP (fun s => s != "") ∧
      ∀ s ∈ (addressTags.map (fun t => pyStrip (e.findtext t ""))).filter (fun s => s != ""),
        s ≠ "" := by
  refine ⟨rfl, fun e => ⟨?_, ?_, ?_⟩⟩
  · simp [parse_address, collectAddressParts_eq]
  · rw [List.countP_eq_length_filter]
  · intro s hs
    have h := List.of_mem_filter hs
    simpa using h

/-- C5 witness: the join and segment conclusions instantiated on a concrete
address block. -/
theorem parse_address_spec_witness :
    parse_address none = "" ∧
    parse_address (some wAddr) =
      String.intercalate ", "
        ((addressTags.map (fun t => pyStrip (wAddr.findtext t ""))).filter
          (fun s => s != "")) ∧
    ("1 Main St" : String) ≠ "" := by
  have h := parse_address_spec
  refine ⟨h.1, (h.2 wAddr).1, ?_⟩
  have hm : "1 Main St" ∈
      (addressTags.map (fun t => pyStrip (wAddr.findtext t ""))).filter (fun s => s != "") := by
    decide
  exact (h.2 wAddr).2.2 "1 Main St" hm

/-- C1 (amended): for the sales-order and purchase-order flatteners, a
transaction with L simple and G grouped line items yields exactly
max(L+G, 1) records; for the invoice flattener, which enumerates only
`InvoiceLineRet`, a transaction yields exactly max(L, 1) records regardless
of grouped elements.  In every case all records of a transaction share the
transaction's header fields verbatim, and a transaction with no enumerated
line items yields exactly one header-only record with every line-item
column set to the empty string. -/
theorem header_line_cardinality :
    (∀ root so, so ∈ root.findallDeep "SalesOrderRet" →
      process_so_response root = ((root.findallDeep "SalesOrderRet").map soTxnRecords).flatten ∧
      (soTxnRecords so).length =
        max ((so.findall "SalesOrderLineRet").length +
          (so.findall "SalesOrderLineGroupRet").length) 1 ∧
      (∀ r ∈ soTxnRecords so, r.toSOHeader = soHeaderOf so) ∧
      (so.findall "SalesOrderLineRet" = [] → so.findall "SalesOrderLineGroupRet" = [] →
        soTxnRecords so = [{ toSOHeader := soHeaderOf so, lineDescription := "", quantity := "", rate := "", amount := "", itemRefFullName := "" }])) ∧
    (∀ root po, po ∈ root.findallDeep "PurchaseOrderRet" →
      process_po_response root = ((root.findallDeep "PurchaseOrderRet").map poTxnRecords).flatten ∧
      (poTxnRecords po).length =
        max ((po.findall "PurchaseOrderLineRet").length +
          (po.findall "PurchaseOrderLineGroupRet").length) 1 ∧
      (∀ r ∈ poTxnRecords po, r.toPOHeader = poHeaderOf po) ∧
      (po.findall "PurchaseOrderLineRet" = [] → po.findall "PurchaseOrderLineGroupRet" = [] →
        poTxnRecords po = [{ toPOHeader := poHeaderOf po, lineDescription := "", quantity := "", rate := "", amount := "", itemRefFullName := "" }])) ∧
    (∀ root inv, inv ∈ root.findallDeep "InvoiceRet" →
      process_invoice_response root =
        ((root.findallDeep "InvoiceRet").map invTxnRecords).flatten ∧
      (invTxnRecords inv).length = max (inv.findall "InvoiceLineRet").length 1 ∧
      (∀ r ∈ invTxnRecords inv, r.toInvHeader = invHeaderOf inv) ∧
      (inv.findall "InvoiceLineRet" = [] →
        invTxnRecords inv = [{ toInvHeader := invHeaderOf inv, lineDescription := "", quantity := "", rate := "", amount := "", itemRefFullName := "" }])) := by
  refine ⟨fun root so _ => ⟨rfl, soTxnRecords_length so, soTxnRecords_header so, ?_⟩,
    fun root po _ => ⟨rfl, poTxnRecords_length po, poTxnRecords_header po, ?_⟩,
    fun root inv _ => ⟨rfl, invTxnRecords_length inv, invTxnRecords_header inv, ?_⟩⟩
  · intro h1 h2
    simp [soTxnRecords, h1, h2, soHeaderOnlyRecord]
  · intro h1 h2
    simp [poTxnRecords, h1, h2, poHeaderOnlyRecord]
  · intro h1
    simp [invTxnRecords, h1, invHeaderOnlyRecord]

/-- C1 counterexample: an invoice carrying one simple `InvoiceLineRet` and
one grouped `InvoiceLineGroupRet` element (L = 1, G = 1) is flattened by
`process_invoice_response` into a single record, not max(L+G, 1) = 2: the
invoice flattener ignores grouped line items. -/
theorem header_line_cardinality_cex :
    invCexTxn ∈ invCexDoc.findallDeep "InvoiceRet" ∧
    (invCexTxn.findall "InvoiceLineRet").length = 1 ∧
    (invCexTxn.findall "InvoiceLineGroupRet").length = 1 ∧
    (process_invoice_response invCexDoc).length = 1 ∧
    (process_invoice_response invCexDoc).length ≠
      max ((invCexTxn.findall "InvoiceLineRet").length +
        (invCexTxn.findall "InvoiceLineGroupRet").length) 1 := by
  refine ⟨List.Mem.head [], rfl, rfl, rfl, ?_⟩
  decide

/-- C1 witness: the cardinality and zero-line-item conclusions instantiated
on concrete documents. -/
theorem header_line_cardinality_witness :
    (soTxnRecords wSO).length =
      max ((wSO.findall "SalesOrderLineRet").length +
        (wSO.findall "SalesOrderLineGroupRet").length) 1 ∧
    soTxnRecords emptySO = [{ toSOHeader := soHeaderOf emptySO, lineDescription := "", quantity := "", rate := "", amount := "", itemRefFullName := "" }] ∧
    (invTxnRecords wInv).length = max (wInv.findall "InvoiceLineRet").length 1 := by
  have h := header_line_cardinality
  exact ⟨(h.1 wSODoc wSO (List.Mem.head [])).2.1,
    (h.1 emptySODoc emptySO (List.Mem.head [])).2.2.2 rfl rfl,
    (h.2.2 wInvDoc wInv (List.Mem.head [])).2.1⟩

/-- C2 (amended): transactions contribute their records in document order
(the output is the concatenation of the per-transaction record lists over
the document-order transaction scan), and within one transaction the
records follow the document order of each line-item kind separately: the
record at index i is the record of the i-th simple line item, and the
record at index L+j is the record of the j-th grouped line item.  All
simple line-item records therefore precede all grouped line-item records,
so the relative document order between the two kinds is not preserved when
a grouped element precedes a simple one (see the counterexample). -/
theorem flattener_ordering :
    (∀ root,
      process_so_response root = ((root.findallDeep "SalesOrderRet").map soTxnRecords).flatten ∧
      process_po_response root = ((root.findallDeep "PurchaseOrderRet").map poTxnRecords).flatten ∧
      process_invoice_response root =
        ((root.findallDeep "InvoiceRet").map invTxnRecords).flatten) ∧
    (∀ (so : XmlElem) (i : Nat) (li : XmlElem), (so.findall "SalesOrderLineRet")[i]? = some li →
      (soTxnRecords so)[i]? = some (soLineRecord (soHeaderOf so) li)) ∧
    (∀ (so : XmlElem) (j : Nat) (g : XmlElem), (so.findall "SalesOrderLineGroupRet")[j]? = some g →
      (soTxnRecords so)[(so.findall "SalesOrderLineRet").length + j]? =
        some (soGroupRecord (soHeaderOf so) g)) ∧
    (∀ (po : XmlElem) (i : Nat) (li : XmlElem), (po.findall "PurchaseOrderLineRet")[i]? = some li →
      (poTxnRecords po)[i]? = some (poLineRecord (poHeaderOf po) li)) ∧
    (∀ (po : XmlElem) (j : Nat) (g : XmlElem), (po.findall "PurchaseOrderLineGroupRet")[j]? = some g →
      (poTxnRecords po)[(po.findall "PurchaseOrderLineRet").length + j]? =
        some (poGroupRecord (poHeaderOf po) g)) ∧
    (∀ (inv : XmlElem) (i : Nat) (li : XmlElem), (inv.findall "InvoiceLineRet")[i]? = some li →
      (invTxnRecords inv)[i]? = some (invLineRecord (invHeaderOf inv) li)) := by
  refine ⟨fun root => ⟨rfl, rfl, rfl⟩, ?_, ?_, ?_, ?_, ?_⟩
  · intro so i li hli
    have hi : i < (so.findall "SalesOrderLineRet").length :=
      (List.getElem?_eq_some_iff.mp hli).choose
    have hne : ¬(so.findall "SalesOrderLineRet" = [] ∧
        so.findall "SalesOrderLineGroupRet" = []) := by
      rintro ⟨h1, -⟩
      simp [h1] at hi
    rw [soTxnRecords_of_nonempty so hne,
      List.getElem?_append_left (by simpa using hi), List.getElem?_map, hli]
    rfl
  · intro so j g hg
    have hj : j < (so.findall "SalesOrderLineGroupRet").length :=
      (List.getElem?_eq_some_iff.mp hg).choose
    have hne : ¬(so.findall "SalesOrderLineRet" = [] ∧
        so.findall "SalesOrderLineGroupRet" = []) := by
      rintro ⟨-, h2⟩
      simp [h2] at hj
    rw [soTxnRecords_of_nonempty so hne,
      List.getElem?_append_right (by simp), List.length_map, Nat.add_sub_cancel_left,
      List.getElem?_map, hg]
    rfl
  · intro po i li hli
    have hi : i < (po.findall "PurchaseOrderLineRet").length :=
      (List.getElem?_eq_some_iff.mp hli).choose
    have hne : ¬(po.findall "PurchaseOrderLineRet" = [] ∧
        po.findall "PurchaseOrderLineGroupRet" = []) := by
      rintro ⟨h1, -⟩
      simp [h1] at hi
    rw [poTxnRecords_of_nonempty po hne,
      List.getElem?_append_left (by simpa using hi), List.getElem?_map, hli]
    rfl
  · intro po j g hg
    have hj : j < (po.findall "PurchaseOrderLineGroupRet").length :=
      (List.getElem?_eq_some_iff.mp hg).choose
    have hne : ¬(po.findall "PurchaseOrderLineRet" = [] ∧
        po.findall "PurchaseOrderLineGroupRet" = []) := by
      rintro ⟨-, h2⟩
      simp [h2] at hj
    rw [poTxnRecords_of_nonempty po hne,
      List.getElem?_append_right (by simp), List.length_map, Nat.add_sub_cancel_left,
      List.getElem?_map, hg]
    rfl
  · intro inv i li hli
    have hi : i < (inv.findall "InvoiceLineRet").length :=
      (List.getElem?_eq_some_iff.mp hli).choose
    have hne : ¬inv.findall "InvoiceLineRet" = [] := by
      intro h1
      simp [h1] at hi
    rw [invTxnRecords_of_nonempty inv hne, List.getElem?_map, hli]
    rfl

/-- C2 counterexample: in `soCexTxn` the grouped element precedes the simple
element in document order, yet the flattened sequence lists the simple
line's record (description "s") before the grouped line's record
(description "g"): the flattened records are not in the document order of
the transaction's line-item elements. -/
theorem flattener_ordering_cex :
    soCexTxn.children = [soCexGroup, soCexLine] ∧
    soCexGroup.tag = "SalesOrderLineGroupRet" ∧
    soCexLine.tag = "SalesOrderLineRet" ∧
    process_so_response soCexDoc =
      [soLineRecord (soHeaderOf soCexTxn) soCexLine,
        soGroupRecord (soHeaderOf soCexTxn) soCexGroup] ∧
    (process_so_response soCexDoc).map (fun r => r.lineDescription) = ["s", "g"] := by
  exact ⟨rfl, rfl, rfl, rfl, rfl⟩

/-- C2 witness: the index-level ordering conclusions instantiated on a
concrete sales order with two simple lines and one grouped line. -/
theorem flattener_ordering_witness :
    (soTxnRecords wSO)[0]? = some (soLineRecord (soHeaderOf wSO) wLine1) ∧
    (soTxnRecords wSO)[1]? = some (soLineRecord (soHeaderOf wSO) wLine2) ∧
    (soTxnRecords wSO)[(wSO.findall "SalesOrderLineRet").length + 0]? =
      some (soGroupRecord (soHeaderOf wSO) wGroup1) := by
  have h := flattener_ordering
  exact ⟨h.2.1 wSO 0 wLine1 rfl, h.2.1 wSO 1 wLine2 rfl, h.2.2.1 wSO 0 wGroup1 rfl⟩

/-- C7: a record produced from a grouped line item always has an empty rate
column, takes its amount from the group's `TotalAmount`, reads its item
name through `ItemGroupRef` (not `ItemRef`), and does appear among the
transaction's flattened records. -/
theorem group_record_invariant :
    (∀ so g, g ∈ so.findall "SalesOrderLineGroupRet" →
      (soGroupRecord (soHeaderOf so) g).rate = "" ∧
      (soGroupRecord (soHeaderOf so) g).amount = g.findtext "TotalAmount" "" ∧
      (soGroupRecord (soHeaderOf so) g).itemRefFullName = refFullName g "ItemGroupRef" ∧
      soGroupRecord (soHeaderOf so) g ∈ soTxnRecords so) ∧
    (∀ po g, g ∈ po.findall "PurchaseOrderLineGroupRet" →
      (poGroupRecord (poHeaderOf po) g).rate = "" ∧
      (poGroupRecord (poHeaderOf po) g).amount = g.findtext "TotalAmount" "" ∧
      (poGroupRecord (poHeaderOf po) g).itemRefFullName = refFullName g "ItemGroupRef" ∧
      poGroupRecord (poHeaderOf po) g ∈ poTxnRecords po) := by
  constructor
  · intro so g hg
    refine ⟨rfl, rfl, rfl, ?_⟩
    have hne : ¬(so.findall "SalesOrderLineRet" = [] ∧
        so.findall "SalesOrderLineGroupRet" = []) := by
      rintro ⟨-, h2⟩
      simp [h2] at hg
    rw [soTxnRecords_of_nonempty so hne]
    exact List.mem_append_right _ (List.mem_map_of_mem _ hg)
  · intro po g hg
    refine ⟨rfl, rfl, rfl, ?_⟩
    have hne : ¬(po.findall "PurchaseOrderLineRet" = [] ∧
        po.findall "PurchaseOrderLineGroupRet" = []) := by
      rintro ⟨-, h2⟩
      simp [h2] at hg
    rw [poTxnRecords_of_nonempty po hne]
    exact List.mem_append_right _ (List.mem_map_of_mem _ hg)

/-- C7 witness: the grouped-record invariant instantiated on a concrete
sales order. -/
theorem group_record_invariant_witness :
    (soGroupRecord (soHeaderOf soCexTxn) soCexGroup).rate = "" ∧
    (soGroupRecord (soHeaderOf soCexTxn) soCexGroup).amount =
      soCexGroup.findtext "TotalAmount" "" ∧
    (soGroupRecord (soHeaderOf soCexTxn) soCexGroup).itemRefFullName =
      refFullName soCexGroup "ItemGroupRef" ∧
    soGroupRecord (soHeaderOf soCexTxn) soCexGroup ∈ soTxnRecords soCexTxn := by
  exact (group_record_invariant.1 soCexTxn soCexGroup (List.Mem.head []))

/-- C6: in the qb_shipto.py extractor, a ship-to block's record is retained
in the output precisely when at least one of its label (`Name`), `Addr1` or
`City` fields is non-blank after trimming; the retention test reads nothing
else, so a block with those three blank is dropped however the other fields
(such as `Note` or `DefaultShipTo`) are populated. -/
theorem shipto_retention_filter (root cust st : XmlElem)
    (hc : cust ∈ root.findallDeep "CustomerRet")
    (hst : st ∈ cust.findall "ShipToAddress") :
    QbShipto.mkShipToRecord (pyStrip (cust.findtext "FullName" "")) st ∈
        QbShipto.parse_shipto root ↔
      (pyStrip (st.findtext "Name" "") ≠ "" ∨ pyStrip (st.findtext "Addr1" "") ≠ "" ∨
        pyStrip (st.findtext "City" "") ≠ "") := by
  constructor
  · intro hmem
    obtain ⟨l, hl, hrl⟩ := List.mem_flatten.mp hmem
    obtain ⟨cust', -, rfl⟩ := List.mem_map.mp hl
    simp only [QbShipto.custShipToRecords] at hrl
    have hk := List.of_mem_filter hrl
    simp only [QbShipto.keepShipTo, QbShipto.mkShipToRecord, Bool.or_eq_true,
      bne_iff_ne, ne_eq] at hk
    tauto
  · intro hcond
    have hkeep : QbShipto.keepShipTo
        (QbShipto.mkShipToRecord (pyStrip (cust.findtext "FullName" "")) st) = true := by
      simp only [QbShipto.keepShipTo, QbShipto.mkShipToRecord, Bool.or_eq_true,
        bne_iff_ne, ne_eq]
      tauto
    refine List.mem_flatten.mpr
      ⟨QbShipto.custShipToRecords cust, List.mem_map_of_mem _ hc, ?_⟩
    simp only [QbShipto.custShipToRecords]
    exact List.mem_filter.mpr ⟨List.mem_map_of_mem _ hst, hkeep⟩

/-- C6 witness: a block with a non-blank `Addr1` is retained; a block with
label, `Addr1` and `City` blank but `Note` and `DefaultShipTo` populated is
dropped. -/
theorem shipto_retention_filter_witness :
    wCust ∈ respCont.findallDeep "CustomerRet" ∧
    wShipToAddr ∈ wCust.findall "ShipToAddress" ∧
    QbShipto.mkShipToRecord (pyStrip (wCust.findtext "FullName" "")) wShipToAddr ∈
      QbShipto.parse_shipto respCont ∧
    degenerateCust ∈ respDone.findallDeep "CustomerRet" ∧
    degShipToAddr ∈ degenerateCust.findall "ShipToAddress" ∧
    QbShipto.mkShipToRecord (pyStrip (degenerateCust.findtext "FullName" "")) degShipToAddr ∉
      QbShipto.parse_shipto respDone := by
  refine ⟨List.Mem.head [], List.Mem.head [], ?_, List.Mem.head [], List.Mem.head [], ?_⟩
  · exact (shipto_retention_filter respCont wCust wShipToAddr (List.Mem.head [])
      (List.Mem.head [])).mpr (Or.inl (by decide))
  · intro hmem
    have h := (shipto_retention_filter respDone degenerateCust degShipToAddr
      (List.Mem.head []) (List.Mem.head [])).mp hmem
    revert h
    decide

/-- C10: the qbinv_all.py customer extractor applies no empty-record filter:
a customer without a `ShipToAddressList` child contributes zero records,
and one with such a child contributes exactly one record per
`ShipToAddress`, blank or not.  Each record's entry string joins only the
six fields Addr1, Addr2, City, State, PostalCode, Country (Addr3 through
Addr5 are dropped) and is given a `label: ` head only when the trimmed
`Name` label is non-blank.  Instantiated: an entirely blank block still
yields one record, and a block populated only in `Addr3` yields the empty
entry. -/
theorem shipto_list_extractor_spec :
    (∀ root : XmlElem, QbinvAll.parse_shipto root =
      ((root.findallDeep "CustomerRet").map QbinvAll.custRecords).flatten) ∧
    (∀ cust : XmlElem, cust.find "ShipToAddressList" = none →
      QbinvAll.custRecords cust = []) ∧
    (∀ cust lst : XmlElem, cust.find "ShipToAddressList" = some lst →
      QbinvAll.custRecords cust =
        (lst.findall "ShipToAddress").map
          (fun st => (pyStrip (cust.findtext "FullName" ""), QbinvAll.shipToEntry st)) ∧
      (QbinvAll.custRecords cust).length = (lst.findall "ShipToAddress").length) ∧
    (∀ st : XmlElem, QbinvAll.shipToEntry st =
      (if pyStrip (st.findtext "Name" "") ≠ ""
       then pyStrip (st.findtext "Name" "") ++ ": " ++ String.intercalate ", "
         ((QbinvAll.shipToTags.map (fun tag => pyStrip (st.findtext tag ""))).filter
           (fun p => p != ""))
       else String.intercalate ", "
         ((QbinvAll.shipToTags.map (fun tag => pyStrip (st.findtext tag ""))).filter
           (fun p => p != "")))) ∧
    QbinvAll.custRecords blankListCust = [("Beta", "")] ∧
    QbinvAll.custRecords noListCust = [] ∧
    QbinvAll.shipToEntry addr3Only = "" := by
  refine ⟨fun root => rfl, ?_, ?_, fun st => rfl, rfl, rfl, rfl⟩
  · intro cust h
    simp [QbinvAll.custRecords, h]
  · intro cust lst h
    refine ⟨?_, ?_⟩ <;> simp [QbinvAll.custRecords, h]

/-- C10 witness: the hypothesis-bearing conclusions instantiated on the
concrete customers. -/
theorem shipto_list_extractor_witness :
    QbinvAll.custRecords noListCust = [] ∧
    QbinvAll.custRecords blankListCust =
      (blankList.findall "ShipToAddress").map
        (fun st => (pyStrip (blankListCust.findtext "FullName" ""), QbinvAll.shipToEntry st)) ∧
    (QbinvAll.custRecords blankListCust).length =
      (blankList.findall "ShipToAddress").length := by
  have h := shipto_list_extractor_spec
  exact ⟨h.2.1 noListCust rfl, (h.2.2.1 blankListCust blankList rfl).1,
    (h.2.2.1 blankListCust blankList rfl).2⟩

/-- A response whose wrapper reports a remaining count other than `"0"`
makes the loop continue. -/
theorem continuesB_of_remaining (r : XmlElem)
    (h : ∃ s, remainingCount r = some s ∧ s ≠ "0") : continuesB r = true := by
  obtain ⟨s, hs, hne⟩ := h
  unfold continuesB
  rw [hs]
  exact bne_iff_ne.mpr hne

/-- A response with a missing wrapper, a missing remaining count, or count
`"0"` stops the loop. -/
theorem stopsB_of_remaining (r : XmlElem)
    (h : remainingCount r = none ∨ remainingCount r = some "0") : continuesB r = false := by
  rcases h with h | h <;> simp [continuesB, h]

theorem mkReqs_length : ∀ (tok : Option String) (l : List XmlElem),
    (mkReqs tok l).length = l.length := by
  intro tok l
  induction l generalizing tok with
  | nil => rfl
  | cons r rest ih => simp [mkReqs, ih]

/-- Request i+1 of the loop carries exactly the iterator id read from
response i. -/
theorem mkReqs_getElem (l : List XmlElem) :
    ∀ (tok : Option String) (i : Nat) (ri : XmlElem), l[i]? = some ri → i + 1 < l.length →
      (mkReqs tok l)[i + 1]? = some (reqOf (respIterId ri)) := by
  induction l with
  | nil =>
    intro tok i ri h _
    simp at h
  | cons r rest ih =>
    intro tok i ri h hlt
    cases i with
    | zero =>
      simp only [List.getElem?_cons_zero, Option.some.injEq] at h
      subst h
      cases rest with
      | nil => simp at hlt
      | cons r' rest' => simp [mkReqs]
    | succ i' =>
      have h' : rest[i']? = some ri := by simpa using h
      have hlt' : i' + 1 < rest.length := by simpa using hlt
      simpa [mkReqs] using ih (respIterId r) i' ri h' hlt'

/-- Shape of a full terminating run: when every response before the last
continues the loop and the last stops it, the loop consumes exactly the
given responses, issues the corresponding request sequence, and accumulates
the concatenation of the per-batch flattened records. -/
theorem paginationLoop_eq {α : Type} (f : XmlElem → List α) (front : List XmlElem) :
    ∀ (tok : Option String) (last : XmlElem),
      (∀ r ∈ front, continuesB r = true) → continuesB last = false →
      paginationLoop f tok (front ++ [last]) =
        (mkReqs tok (front ++ [last]), ((front ++ [last]).map f).flatten) := by
  induction front with
  | nil =>
    intro tok last _ hlast
    simp [paginationLoop, mkReqs, hlast]
  | cons r rest ih =>
    intro tok last hfront hlast
    have hr : continuesB r = true := hfront r (List.mem_cons_self r rest)
    have ih' := ih (respIterId r) last (fun x hx => hfront x (List.mem_cons_of_mem r hx)) hlast
    simp [paginationLoop, hr, ih', mkReqs]

/-- C3: against a channel whose first n responses report a non-exhausted
remaining count (in particular any positive count) and whose (n+1)-st
reports it absent or zero, the driver issues exactly n+1 requests and
terminates; the accumulated sequence is the concatenation of the per-batch
flattened records in batch order, so its length is the sum of the per-batch
record counts; and after each non-final batch the next request carries
exactly the cursor token read from that batch's response. -/
theorem pagination_termination {α : Type} (f : XmlElem → List α) (front : List XmlElem)
    (last : XmlElem)
    (hfront : ∀ r ∈ front, ∃ s, remainingCount r = some s ∧ s ≠ "0")
    (hlast : remainingCount last = none ∨ remainingCount last = some "0") :
    (paginationLoop f none (front ++ [last])).1.length = front.length + 1 ∧
    (paginationLoop f none (front ++ [last])).2 = ((front ++ [last]).map f).flatten ∧
    (paginationLoop f none (front ++ [last])).2.length =
      ((front ++ [last]).map (fun r => (f r).length)).sum ∧
    (∀ (i : Nat) (ri : XmlElem), (front ++ [last])[i]? = some ri →
      i + 1 < front.length + 1 →
      (paginationLoop f none (front ++ [last])).1[i + 1]? =
        some (reqOf (respIterId ri))) := by
  have hf : ∀ r ∈ front, continuesB r = true :=
    fun r hr => continuesB_of_remaining r (hfront r hr)
  have hl : continuesB last = false := stopsB_of_remaining last hlast
  have heq := paginationLoop_eq f front none last hf hl
  refine ⟨?_, ?_, ?_, ?_⟩
  · rw [heq]
    simp [mkReqs_length]
  · rw [heq]
  · rw [heq]
    simp only [List.length_flatten, List.map_map]
    rfl
  · intro i ri hi hlt
    rw [heq]
    exact mkReqs_getElem _ none i ri hi (by simpa using hlt)

/-- C3 witness: two batches, the first reporting five remaining records,
the second reporting zero, with the qb_shipto.py flattener per batch. -/
theorem pagination_termination_witness :
    (∃ s, remainingCount respCont = some s ∧ s ≠ "0") ∧
    (remainingCount respDone = none ∨ remainingCount respDone = some "0") ∧
    (paginationLoop QbShipto.parse_shipto none ([respCont] ++ [respDone])).1.length =
      [respCont].length + 1 ∧
    (paginationLoop QbShipto.parse_shipto none ([respCont] ++ [respDone])).2 =
      (([respCont] ++ [respDone]).map QbShipto.parse_shipto).flatten ∧
    (paginationLoop QbShipto.parse_shipto none ([respCont] ++ [respDone])).2.length =
      (([respCont] ++ [respDone]).map (fun r => (QbShipto.parse_shipto r).length)).sum := by
  have h1 : ∃ s, remainingCount respCont = some s ∧ s ≠ "0" := ⟨"5", rfl, by decide⟩
  have h2 : remainingCount respDone = none ∨ remainingCount respDone = some "0" := Or.inr rfl
  have h := pagination_termination QbShipto.parse_shipto [respCont] respDone
    (by intro r hr; rw [List.mem_singleton.mp hr]; exact h1) h2
  exact ⟨h1, h2, h.1, h.2.1, h.2.2.1⟩

/-- The Continue-mode request renders the token between the fixed template
segments, provided the token is truthy (non-empty). -/
theorem build_continue_eq (t : String) (ht : t ≠ "") :
    QbShipto.build_qbxml_customers_request "Continue" (some t) =
      custContPre ++ t ++ custContPost := by
  simp only [QbShipto.build_qbxml_customers_request]
  rw [if_pos ht]
  simp only [custContPre, custContPost, String.append_assoc]

set_option maxRecDepth 8192 in
/-- C8: in a terminating run the first request carries cursor mode `Start`
with no token; its rendered document has no `iteratorID` attribute and caps
the batch at `MaxReturned` 100.  Every subsequent request carries mode
`Continue` with the token equal to the `iteratorID` of the immediately
preceding response, rendered as an `iteratorID` attribute; and exactly
front.length + 1 requests exist in the whole run, so no token is used after
the loop terminates. -/
theorem cursor_protocol (front : List XmlElem) (last : XmlElem)
    (hfront : ∀ r ∈ front, continuesB r = true)
    (hlast : continuesB last = false)
    (htok : ∀ r ∈ front, ∃ t, respIterId r = some t ∧ t ≠ "") :
    (paginationLoop QbShipto.parse_shipto none (front ++ [last])).1.length =
      front.length + 1 ∧
    (paginationLoop QbShipto.parse_shipto none (front ++ [last])).1[0]? =
      some { mode := "Start", token := none } ∧
    hasSubstr (QbShipto.build_qbxml_customers_request "Start" none) "iteratorID" = false ∧
    hasSubstr (QbShipto.build_qbxml_customers_request "Start" none)
      "<MaxReturned>100</MaxReturned>" = true ∧
    (∀ (i : Nat) (ri : XmlElem), (front ++ [last])[i]? = some ri →
      i + 1 < front.length + 1 →
      ∃ t, respIterId ri = some t ∧ t ≠ "" ∧
        (paginationLoop QbShipto.parse_shipto none (front ++ [last])).1[i + 1]? =
          some { mode := "Continue", token := some t } ∧
        QbShipto.build_qbxml_customers_request "Continue" (some t) =
          custContPre ++ t ++ custContPost) := by
  have heq := paginationLoop_eq QbShipto.parse_shipto front none last hfront hlast
  refine ⟨?_, ?_, rfl, rfl, ?_⟩
  · rw [heq]
    simp [mkReqs_length]
  · rw [heq]
    cases front <;> simp [mkReqs, reqOf]
  · intro i ri hi hlt
    have hifront : i < front.length := by omega
    have hmem : ri ∈ front := by
      rw [List.getElem?_append_left hifront] at hi
      exact List.getElem?_mem hi
    obtain ⟨t, ht, htne⟩ := htok ri hmem
    refine ⟨t, ht, htne, ?_, build_continue_eq t htne⟩
    rw [heq]
    have := mkReqs_getElem (front ++ [last]) none i ri hi (by simpa using hlt)
    rw [this, ht]
    rfl

set_option maxRecDepth 8192 in
/-- C8 witness: a run of two batches whose first response carries iterator
id `"IT1"` and five remaining records. -/
theorem cursor_protocol_witness :
    continuesB respCont = true ∧
    continuesB respDone = false ∧
    (∃ t, respIterId respCont = some t ∧ t ≠ "") ∧
    (paginationLoop QbShipto.parse_shipto none ([respCont] ++ [respDone])).1[0]? =
      some { mode := "Start", token := none } ∧
    (∃ t, respIterId respCont = some t ∧ t ≠ "" ∧
      (paginationLoop QbShipto.parse_shipto none ([respCont] ++ [respDone])).1[0 + 1]? =
        some { mode := "Continue", token := some t } ∧
      QbShipto.build_qbxml_customers_request "Continue" (some t) =
        custContPre ++ t ++ custContPost) := by
  have htok : ∀ r ∈ [respCont], ∃ t, respIterId r = some t ∧ t ≠ "" := by
    intro r hr
    rw [List.mem_singleton.mp hr]
    exact ⟨"IT1", rfl, by decide⟩
  have h := cursor_protocol [respCont] respDone
    (by intro r hr; rw [List.mem_singleton.mp hr]; rfl) rfl htok
  exact ⟨rfl, rfl, ⟨"IT1", rfl, by decide⟩, h.2.1, h.2.2.2.2 0 respCont rfl (by decide)⟩

/-- Splitting the literal that opens the date-range filter element. -/
theorem txnFilterSplit :
    ("      <TxnDateRangeFilter>\n" : String) = "      " ++ "<TxnDateRangeFilter>" ++ "\n" := by
  rfl

/-- Splitting the literal that carries the line-item-inclusion element. -/
theorem includeItemsSplit :
    ("      <IncludeLineItems>1</IncludeLineItems>\n" : String) =
      "      " ++ "<IncludeLineItems>" ++ "1</IncludeLineItems>\n" := by
  rfl

set_option maxRecDepth 8192 in
/-- C4: for every year string Y (and processing date `todayISO`, the
explicit stand-in for `date.today().isoformat()`), each year-request
builder emits the fixed template with the from-date equal to `Y-01-01` and
the to-date equal to the processing date, spliced between the named
segments; and in the emitted document the `TxnDateRangeFilter` element
textually precedes the `IncludeLineItems` element: the document decomposes
around the two tags with no occurrence of the inclusion tag at or before
the filter tag. -/
theorem year_request_structure :
    ∀ year todayISO : String,
      build_qbxml_year_invoices_request year todayISO =
        invYearPre ++ (year ++ "-01-01") ++ yearReqMid ++ todayISO ++ invYearPost ∧
      build_qbxml_year_so_request year todayISO =
        soYearPre ++ (year ++ "-01-01") ++ yearReqMid ++ todayISO ++ soYearPost ∧
      build_qbxml_year_po_request year todayISO =
        poYearPre ++ (year ++ "-01-01") ++ yearReqMid ++ todayISO ++ poYearPost ∧
      (∃ u v w, build_qbxml_year_invoices_request year todayISO =
          u ++ "<TxnDateRangeFilter>" ++ v ++ "<IncludeLineItems>" ++ w ∧
        hasSubstr (u ++ "<TxnDateRangeFilter>") "<IncludeLineItems>" = false) ∧
      (∃ u v w, build_qbxml_year_so_request year todayISO =
          u ++ "<TxnDateRangeFilter>" ++ v ++ "<IncludeLineItems>" ++ w ∧
        hasSubstr (u ++ "<TxnDateRangeFilter>") "<IncludeLineItems>" = false) ∧
      (∃ u v w, build_qbxml_year_po_request year todayISO =
          u ++ "<TxnDateRangeFilter>" ++ v ++ "<IncludeLineItems>" ++ w ∧
        hasSubstr (u ++ "<TxnDateRangeFilter>") "<IncludeLineItems>" = false) := by
  intro year todayISO
  refine ⟨?_, ?_, ?_, ?_, ?_, ?_⟩
  · simp only [build_qbxml_year_invoices_request, invYearPre, yearReqMid, invYearPost,
      String.append_assoc]
  · simp only [build_qbxml_year_so_request, soYearPre, yearReqMid, soYearPost,
      String.append_assoc]
  · simp only [build_qbxml_year_po_request, poYearPre, yearReqMid, poYearPost,
      String.append_assoc]
  · refine ⟨"<?xml version=\"1.0\" encoding=\"utf-8\"?>\n" ++ "<?qbxml version=\"16.0\"?>\n" ++
      "<QBXML>\n" ++ "  <QBXMLMsgsRq onError=\"continueOnError\">\n" ++
      "    <InvoiceQueryRq requestID=\"1\">\n" ++ "      ",
      "\n" ++ "        <FromTxnDate>" ++ (year ++ "-01-01") ++ "</FromTxnDate>\n" ++
      "        <ToTxnDate>" ++ todayISO ++ "</ToTxnDate>\n" ++
      "      </TxnDateRangeFilter>\n" ++ "      ",
      "1</IncludeLineItems>\n" ++ "    </InvoiceQueryRq>\n" ++ "  </QBXMLMsgsRq>\n" ++
      "</QBXML>", ?_, by decide⟩
    simp only [build_qbxml_year_invoices_request, txnFilterSplit, includeItemsSplit,
      String.append_assoc]
  · refine ⟨"<?xml version=\"1.0\" encoding=\"utf-8\"?>\n" ++ "<?qbxml version=\"16.0\"?>\n" ++
      "<QBXML>\n" ++ "  <QBXMLMsgsRq onError=\"continueOnError\">\n" ++
      "    <SalesOrderQueryRq requestID=\"1\">\n" ++ "      ",
      "\n" ++ "        <FromTxnDate>" ++ (year ++ "-01-01") ++ "</FromTxnDate>\n" ++
      "        <ToTxnDate>" ++ todayISO ++ "</ToTxnDate>\n" ++
      "      </TxnDateRangeFilter>\n" ++ "      ",
      "1</IncludeLineItems>\n" ++ "    </SalesOrderQueryRq>\n" ++ "  </QBXMLMsgsRq>\n" ++
      "</QBXML>", ?_, by decide⟩
    simp only [build_qbxml_year_so_request, txnFilterSplit, includeItemsSplit,
      String.append_assoc]
  · refine ⟨"<?xml version=\"1.0\" encoding=\"utf-8\"?>\n" ++ "<?qbxml version=\"16.0\"?>\n" ++
      "<QBXML>\n" ++ "  <QBXMLMsgsRq onError=\"continueOnError\">\n" ++
      "    <PurchaseOrderQueryRq requestID=\"1\">\n" ++ "      ",
      "\n" ++ "        <FromTxnDate>" ++ (year ++ "-01-01") ++ "</FromTxnDate>\n" ++
      "        <ToTxnDate>" ++ todayISO ++ "</ToTxnDate>\n" ++
      "      </TxnDateRangeFilter>\n" ++ "      ",
      "1</IncludeLineItems>\n" ++ "    </PurchaseOrderQueryRq>\n" ++ "  </QBXMLMsgsRq>\n" ++
      "</QBXML>", ?_, by decide⟩
    simp only [build_qbxml_year_po_request, txnFilterSplit, includeItemsSplit,
      String.append_assoc]

set_option maxRecDepth 8192 in
/-- C9: each single-identifier builder returns the fixed query template
with the identifier inserted verbatim between the `RefNumber` tags, for
every identifier string and with no XML escaping; consequently an
identifier containing a raw `<` (here `"a < b"`) produces a document that
violates the markup condition `xmlLtOk` — a necessary condition for XML
well-formedness of these documents, since a `<` in element content must
start markup — while an ordinary identifier does not. -/
theorem identifier_verbatim_insertion :
    (∀ s : String, build_qbxml_invoice_request s = invoiceReqPre ++ s ++ invoiceReqPost) ∧
    (∀ s : String, build_qbxml_so_request s = soReqPre ++ s ++ soReqPost) ∧
    (∀ s : String, build_qbxml_po_request s = poReqPre ++ s ++ poReqPost) ∧
    xmlLtOk (build_qbxml_invoice_request "1001") = true ∧
    xmlLtOk (build_qbxml_invoice_request "a < b") = false ∧
    xmlLtOk (build_qbxml_so_request "a < b") = false ∧
    xmlLtOk (build_qbxml_po_request "a < b") = false := by
  refine ⟨fun s => ?_, fun s => ?_, fun s => ?_, by decide, by decide, by decide, by decide⟩
  · simp only [build_qbxml_invoice_request, invoiceReqPre, invoiceReqPost, String.append_assoc]
  · simp only [build_qbxml_so_request, soReqPre, soReqPost, String.append_assoc]
  · simp only [build_qbxml_po_request, poReqPre, poReqPost, String.append_assoc]

end QBExport
